import Mathlib

/-!
# Verification of the `CLTNavMeshSystem` navigation-mesh pathfinder

Shallow embedding of `src/include/gameplay/CLTNavMeshSystem.h`,
`src/include/CLTVector.h` and `src/src/gameplay/CLTNavMeshSystem.cpp`.

Modelling conventions:
* C++ `float` values are modelled as rationals (`ℚ`); all float arithmetic
  appearing in the embedded code (`+`, `-`, `*`, comparisons, squared
  distances) is exact on the inputs used here.
* `CLTVector::Distance` computes a square root (`std::sqrt`), which has no
  exact rational counterpart; every function that calls it
  (`CalculateHeuristic` and the cost accumulation in `FindPathToo`) is
  therefore parameterised by an abstract metric
  `dist : CLTVector → CLTVector → ℚ` standing for `Distance`.  Theorems either
  hold for every `dist`, or are evaluated on runs whose control flow never
  compares metric values.
* Heap pointers are modelled by indices: `NavMeshPathNode*` becomes an index
  into `m_nodePool`, the null pointer becomes `Option.none`;
  `CLTNavMeshController*` becomes a `Nat` drawn from a fresh-address counter.
* `std::map` becomes an association list iterated in list order (a `std::map`
  iterates in strictly increasing key order; theorems that depend on the
  order state it explicitly).
-/

namespace NavMesh

/-- `CLTVector` (src/include/CLTVector.h): x, y, z float components. -/
structure CLTVector where
  x : ℚ
  y : ℚ
  z : ℚ
deriving DecidableEq, Repr

instance : Inhabited CLTVector := ⟨⟨0, 0, 0⟩⟩

/-- `CLTVector::operator+`. -/
def CLTVector.add (a b : CLTVector) : CLTVector :=
  ⟨a.x + b.x, a.y + b.y, a.z + b.z⟩

/-- `CLTVector::operator-`. -/
def CLTVector.sub (a b : CLTVector) : CLTVector :=
  ⟨a.x - b.x, a.y - b.y, a.z - b.z⟩

/-- `CLTVector::operator*` (scalar). -/
def CLTVector.scale (a : CLTVector) (s : ℚ) : CLTVector :=
  ⟨a.x * s, a.y * s, a.z * s⟩

/-- `CLTVector::LengthSquared`. -/
def CLTVector.LengthSquared (a : CLTVector) : ℚ :=
  a.x * a.x + a.y * a.y + a.z * a.z

/-- `CLTVector::DistanceSquared`. -/
def CLTVector.DistanceSquared (a other : CLTVector) : ℚ :=
  (a.sub other).LengthSquared

/-- `NavMeshPoly` (header lines 18-26). -/
structure NavMeshPoly where
  id : Nat
  vertices : List CLTVector
  center : CLTVector
  height : ℚ
  neighbors : List Nat
  flags : Nat
  area : Nat
deriving DecidableEq, Repr

/-- `NavMeshPathNode` (header lines 31-38); `parent` is a node pointer,
modelled as an optional pool index (`none` = `nullptr`). -/
structure NavMeshPathNode where
  position : CLTVector
  polyId : Nat
  cost : ℚ
  heuristic : ℚ
  totalCost : ℚ
  parent : Option Nat
deriving DecidableEq, Repr

instance : Inhabited NavMeshPathNode := ⟨⟨default, 0, 0, 0, 0, none⟩⟩

/-- `CLTNavMeshPath`: declared in the source only as `class CLTNavMeshPath {};`
(CLTNavMeshSystem.cpp line 10) — it has no members, so a path value carries
no waypoint data at all. -/
structure CLTNavMeshPath where
deriving DecidableEq, Repr

/-- `CLTNavMeshSystem::PathFindResult` (header lines 52-61). -/
inductive PathFindResult where
  | PATHFIND_SUCCESS
  | PATHFIND_PARTIAL
  | PATHFIND_NO_PATH
  | PATHFIND_INVALID_START
  | PATHFIND_INVALID_END
  | PATHFIND_OUT_OF_NODES
  | PATHFIND_TIMEOUT
  | PATHFIND_ERROR
deriving DecidableEq, Repr

export PathFindResult (PATHFIND_SUCCESS PATHFIND_PARTIAL PATHFIND_NO_PATH
  PATHFIND_INVALID_START PATHFIND_INVALID_END PATHFIND_OUT_OF_NODES)

/-- `AreaFlags` (header lines 66-75). -/
def AREA_WALKABLE : Nat := 0x01
def AREA_JUMP : Nat := 0x02
def AREA_WATER : Nat := 0x04
def AREA_DOOR : Nat := 0x08
def AREA_STAIRS : Nat := 0x10
def AREA_INDOORS : Nat := 0x20
def AREA_NO_NAVIGATION : Nat := 0x40
def AREA_RESTRICTED : Nat := 0x80

/-- `CLTNavMeshSystem::PathFindOptions` (header lines 80-89). -/
structure PathFindOptions where
  maxIterations : Nat
  maxNodes : Nat
  maxDistance : ℚ
  straightPathTolerance : ℚ
  optimizePath : Bool
  areaFlags : Nat
  excludedAreaFlags : Nat
  timeout : ℚ
deriving DecidableEq, Repr

/-- The mutable state of a `CLTNavMeshSystem` object (header lines 312-327).
`m_controllers` maps world ids to controller object identities;
`m_nextController` models the allocator handing out fresh, never-reused
controller addresses.  `m_openList`/`m_closedList` hold pool indices
(the C++ lists hold `NavMeshPathNode*` pointers into `m_nodePool`). -/
structure CLTNavMeshSystem where
  m_controllers : List (Nat × Nat)
  m_pActiveController : Option Nat
  m_polygons : List (Nat × NavMeshPoly)
  m_nodePool : List NavMeshPathNode
  m_openList : List Nat
  m_closedList : List Nat
  m_nextTriggerId : Nat
  m_checkNavMeshBottom : ℚ
  m_checkNavMeshTop : ℚ
  m_drawNavMesh : Bool
  m_defaultOptions : PathFindOptions
  m_nextController : Nat
deriving DecidableEq, Repr

/-- The `CLTNavMeshSystem` constructor (cpp lines 13-40): default options and
a pre-allocated pool of 4096 nodes with `parent = nullptr`.  The constructor
initialises only `parent`; the remaining node fields are uninitialised in C++
and modelled as zeros (no code path reads them before writing them). -/
def CLTNavMeshSystem.init : CLTNavMeshSystem :=
  { m_controllers := []
    m_pActiveController := none
    m_polygons := []
    m_nodePool := List.replicate 4096 default
    m_openList := []
    m_closedList := []
    m_nextTriggerId := 1
    m_checkNavMeshBottom := -50
    m_checkNavMeshTop := 50
    m_drawNavMesh := false
    m_defaultOptions :=
      { maxIterations := 2000
        maxNodes := 4096
        maxDistance := 1000
        straightPathTolerance := 1/10
        optimizePath := true
        areaFlags := AREA_WALKABLE
        excludedAreaFlags := AREA_NO_NAVIGATION
        timeout := 1 }
    m_nextController := 0 }

/-- Read a pool node through a pointer (index).  All pointers stored by the
code are in range; the default is never observable on the embedded runs. -/
def nodeAt (pool : List NavMeshPathNode) (i : Nat) : NavMeshPathNode :=
  pool.getD i default

/-- Write through a pointer: replace the node at index `i`. -/
def listModify {α : Type} (l : List α) (i : Nat) (f : α → α) : List α :=
  match l, i with
  | [], _ => []
  | a :: t, 0 => f a :: t
  | a :: t, n + 1 => a :: listModify t n f

/-- Scan of the node pool in order, returning the index of the first node
whose `parent` is the null sentinel (`b` is the index of the head of the
remaining list). -/
def allocScan : List NavMeshPathNode → Nat → Option Nat
  | [], _ => none
  | node :: rest, b =>
    if node.parent = none then some b else allocScan rest (b + 1)

/-- `CLTNavMeshSystem::AllocateNode` (cpp lines 504-515): return the first
pool node whose `parent` is the null sentinel, or fail. -/
def AllocateNode (pool : List NavMeshPathNode) : Option Nat :=
  allocScan pool 0

/-- `CLTNavMeshSystem::FreeNode` (cpp lines 517-522): clear `parent` back to
the null sentinel.  Note: no call site exists anywhere in the source. -/
def FreeNode (pool : List NavMeshPathNode) (i : Nat) : List NavMeshPathNode :=
  listModify pool i (fun node => { node with parent := none })

/-- Number of free (allocatable) nodes in the pool. -/
def freeNodeCount (pool : List NavMeshPathNode) : Nat :=
  pool.countP (fun node => decide (node.parent = none))

/-- `CLTNavMeshSystem::IsPositionInPolygon` (cpp lines 563-577): horizontal
projection within the fixed 2.0-unit disk around the polygon center. -/
def IsPositionInPolygon (position : CLTVector) (poly : NavMeshPoly) : Bool :=
  let flatPos : CLTVector := ⟨position.x, 0, position.z⟩
  let flatCenter : CLTVector := ⟨poly.center.x, 0, poly.center.z⟩
  decide (flatPos.DistanceSquared flatCenter ≤ 2 * 2)

/-- One `m_polygons` iteration step of `CLTNavMeshSystem::FindPolygon`
(cpp lines 533-558).  Accumulator is `(bestPolyId, bestDistanceSq)`. -/
def findPolygonStep (bottom top : ℚ) (position : CLTVector)
    (acc : Nat × ℚ) (pair : Nat × NavMeshPoly) : Nat × ℚ :=
  let poly := pair.2
  if position.y < poly.height + bottom ∨ position.y > poly.height + top then
    acc
  else
    let flatPos : CLTVector := ⟨position.x, 0, position.z⟩
    let flatCenter : CLTVector := ⟨poly.center.x, 0, poly.center.z⟩
    let distanceSq := flatPos.DistanceSquared flatCenter
    if distanceSq < acc.2 then
      if IsPositionInPolygon position poly then (pair.1, 0)
      else if acc.1 = 0 then (pair.1, distanceSq)
      else acc
    else acc

/-- `CLTNavMeshSystem::FindPolygon` (cpp lines 524-561); the header declares
the default argument `maxDistance = 2.0f`. -/
def FindPolygon (sys : CLTNavMeshSystem) (position : CLTVector)
    (maxDistance : ℚ := 2) : Nat :=
  (sys.m_polygons.foldl (findPolygonStep sys.m_checkNavMeshBottom
    sys.m_checkNavMeshTop position) (0, maxDistance * maxDistance)).1

/-- `CLTNavMeshSystem::GetPolygon` (cpp lines 419-431): exact-key map lookup. -/
def GetPolygon (sys : CLTNavMeshSystem) (polyId : Nat) : Option NavMeshPoly :=
  (sys.m_polygons.find? (fun pair => pair.1 = polyId)).map (fun pair => pair.2)

/-- `CLTNavMeshSystem::IsPositionValid` (cpp lines 345-356): returns the
validity bool together with the id written to the `polyId` out-parameter. -/
def IsPositionValid (sys : CLTNavMeshSystem) (position : CLTVector) :
    Bool × Nat :=
  let foundPolyId := FindPolygon sys position
  (decide (foundPolyId ≠ 0), foundPolyId)

/-- `CLTNavMeshSystem::FindNearestValidPosition` (cpp lines 323-343):
`some result` models `return true` with `*pResult` written; `none` models
`return false` with the out-parameter untouched. -/
def FindNearestValidPosition (sys : CLTNavMeshSystem) (position : CLTVector)
    (maxDistance : ℚ) : Option CLTVector :=
  let polyId := FindPolygon sys position maxDistance
  if polyId = 0 then none
  else
    match GetPolygon sys polyId with
    | none => none
    | some poly => some ⟨position.x, poly.height, position.z⟩

/-- `CLTNavMeshSystem::CalculateHeuristic` (cpp lines 579-583): straight-line
distance, i.e. the abstract metric standing for `CLTVector::Distance`. -/
def CalculateHeuristic (dist : CLTVector → CLTVector → ℚ)
    (position goal : CLTVector) : ℚ :=
  dist position goal

/-- `CLTNavMeshSystem::ReconstructPath` (cpp lines 585-594): constructs a
default `CLTNavMeshPath` and ignores its argument — the body is a TODO stub
("In the original implementation, this would reconstruct the path by
following the parent pointers from the end node back to the start"). -/
def ReconstructPath (_pEndNode : Nat) : CLTNavMeshPath := {}

/-- `CLTNavMeshSystem::GetBestPartialPath` (cpp lines 596-605): constructs a
default `CLTNavMeshPath` without inspecting the open list — the body is a
TODO stub ("this would find the node in the open list that's closest to the
destination"). -/
def GetBestPartialPath (_sys : CLTNavMeshSystem) : CLTNavMeshPath := {}

/-- Read the `totalCost` field through an open-list pointer (used by the
`std::min_element` comparator in cpp lines 216-219). -/
def totalCostAt (pool : List NavMeshPathNode) (i : Nat) : ℚ :=
  (nodeAt pool i).totalCost

/-- Position (within the open list) of the element `std::min_element` returns:
the first element strictly smaller than every earlier one, under the
comparator `a->totalCost < b->totalCost`.  `curPos` is the position of the
head of the remaining list, `bestPos`/`bestVal` the best found so far. -/
def minPosAux (pool : List NavMeshPathNode) :
    List Nat → Nat → Nat → ℚ → Nat
  | [], _, bestPos, _ => bestPos
  | i :: rest, curPos, bestPos, bestVal =>
    if totalCostAt pool i < bestVal then
      minPosAux pool rest (curPos + 1) curPos (totalCostAt pool i)
    else
      minPosAux pool rest (curPos + 1) bestPos bestVal

/-- Open-list position selected by `std::min_element` (cpp lines 216-219);
only evaluated on non-empty open lists. -/
def minElementPos (pool : List NavMeshPathNode) (openList : List Nat) : Nat :=
  match openList with
  | [] => 0
  | first :: rest => minPosAux pool rest 1 0 (totalCostAt pool first)

/-- Write the neighbor node's fields (cpp lines 291-297):
position, polyId, cost, heuristic, totalCost = cost + heuristic,
parent = pointer to the current node. -/
def writeNode (sys : CLTNavMeshSystem) (i : Nat) (newPos : CLTVector)
    (neighborId : Nat) (newCost heuristic : ℚ) (currentIdx : Nat) :
    CLTNavMeshSystem :=
  { sys with m_nodePool := listModify sys.m_nodePool i (fun _ =>
      { position := newPos
        polyId := neighborId
        cost := newCost
        heuristic := heuristic
        totalCost := newCost + heuristic
        parent := some currentIdx }) }

/-- Processing of one neighbor id inside the expansion loop
(cpp lines 241-298).  `none` models the `return PATHFIND_OUT_OF_NODES`
at line 286; otherwise the updated system state is returned.
Note the loop performs no area-flag test of any kind: the neighbor is
examined regardless of `neighborPoly.area`. -/
def expandNeighbor (dist : CLTVector → CLTVector → ℚ) (endPos : CLTVector)
    (currentIdx : Nat) (sys : CLTNavMeshSystem) (neighborId : Nat) :
    Option CLTNavMeshSystem :=
  if sys.m_closedList.any
      (fun i => decide ((nodeAt sys.m_nodePool i).polyId = neighborId)) then
    some sys
  else
    match GetPolygon sys neighborId with
    | none => some sys
    | some neighborPoly =>
      let current := nodeAt sys.m_nodePool currentIdx
      let newPos := (current.position.add neighborPoly.center).scale (1/2)
      let newCost := current.cost + dist current.position newPos
      match sys.m_openList.find?
          (fun i => decide ((nodeAt sys.m_nodePool i).polyId = neighborId)) with
      | some existingIdx =>
        if (nodeAt sys.m_nodePool existingIdx).cost ≤ newCost then some sys
        else
          some (writeNode sys existingIdx newPos neighborId newCost
            (CalculateHeuristic dist newPos endPos) currentIdx)
      | none =>
        match AllocateNode sys.m_nodePool with
        | none => none
        | some newIdx =>
          let sys := { sys with m_openList := sys.m_openList ++ [newIdx] }
          some (writeNode sys newIdx newPos neighborId newCost
            (CalculateHeuristic dist newPos endPos) currentIdx)

/-- Fold of `expandNeighbor` over the current polygon's neighbor list
(cpp line 241).  `Except.error s` models the `return PATHFIND_OUT_OF_NODES`
at line 286: the function returns at once, keeping every mutation made while
processing the *earlier* neighbors (state `s`); nothing of the failing
neighbor itself has been written yet, since the allocation attempt precedes
all writes for that neighbor. -/
def expandNeighbors (dist : CLTVector → CLTVector → ℚ) (endPos : CLTVector)
    (currentIdx : Nat) : List Nat → CLTNavMeshSystem →
    Except CLTNavMeshSystem CLTNavMeshSystem
  | [], sys => .ok sys
  | n :: rest, sys =>
    match expandNeighbor dist endPos currentIdx sys n with
    | none => .error sys
    | some sys' => expandNeighbors dist endPos currentIdx rest sys'

/-- Outcome of one iteration of the A* `while` body (cpp lines 214-301). -/
inductive StepOut where
  | noPath (sys : CLTNavMeshSystem)
  | success (endNodeIdx : Nat) (sys : CLTNavMeshSystem)
  | outOfNodes (sys : CLTNavMeshSystem)
  | next (sys : CLTNavMeshSystem)
deriving DecidableEq, Repr

/-- One iteration of the A* main loop (cpp lines 214-301): pop the
min-total-cost open node into the closed list, test the goal, expand
neighbors.  The `continue` at line 237 (current polygon missing from the
store) re-enters the loop **without** passing the `iterations++` at line 300,
so it is handled inside this function, bounded by `gas`.  Callers pass
`gas = open-list length`; every `continue` removes one open entry, so the
`gas = 0` fallback (which mirrors the loop's open-empty exit) is unreachable
for such callers — `iterStep_gas_congr` below proves the result is the same
for every `gas` at least the open-list length. -/
def iterStep (dist : CLTVector → CLTVector → ℚ) (endPos : CLTVector)
    (endPolyId : Nat) : Nat → CLTNavMeshSystem → StepOut
  | gas, sys =>
    if sys.m_openList.isEmpty then .noPath sys
    else
      let pos := minElementPos sys.m_nodePool sys.m_openList
      let currentIdx := sys.m_openList.getD pos 0
      let sys' := { sys with
        m_openList := sys.m_openList.eraseIdx pos
        m_closedList := sys.m_closedList ++ [currentIdx] }
      if (nodeAt sys'.m_nodePool currentIdx).polyId = endPolyId then
        .success currentIdx sys'
      else
        match GetPolygon sys' (nodeAt sys'.m_nodePool currentIdx).polyId with
        | none =>
          match gas with
          | g + 1 => iterStep dist endPos endPolyId g sys'
          | 0 => .noPath sys'
        | some currentPoly =>
          match expandNeighbors dist endPos currentIdx
              currentPoly.neighbors sys' with
          | .error sys'' => .outOfNodes sys''
          | .ok sys'' => .next sys''

/-- The A* main loop (cpp lines 213-310) together with the post-loop result
selection (cpp lines 303-310).  `fuel` is the remaining iteration budget
(`maxIterations - iterations`).  The third component models the `*pPath`
out-parameter: `some` when the function writes it (success at line 230,
partial at line 306), `none` when it returns without writing it. -/
def astarLoop (dist : CLTVector → CLTVector → ℚ) (endPos : CLTVector)
    (endPolyId : Nat) :
    Nat → CLTNavMeshSystem →
    PathFindResult × CLTNavMeshSystem × Option CLTNavMeshPath
  | 0, sys =>
    if sys.m_openList.isEmpty then (PATHFIND_NO_PATH, sys, none)
    else (PATHFIND_PARTIAL, sys, some (GetBestPartialPath sys))
  | fuel + 1, sys =>
    match iterStep dist endPos endPolyId sys.m_openList.length sys with
    | .noPath sys' => (PATHFIND_NO_PATH, sys', none)
    | .success endNodeIdx sys' =>
      (PATHFIND_SUCCESS, sys', some (ReconstructPath endNodeIdx))
    | .outOfNodes sys' => (PATHFIND_OUT_OF_NODES, sys', none)
    | .next sys' => astarLoop dist endPos endPolyId fuel sys'

/-- `CLTNavMeshSystem::FindPathToo` (cpp lines 167-311).  `maxIterations`
and `maxNodeCount` are C++ `int`s; the loop guard `iterations < maxIterations`
with `iterations` counting up from 0 makes the effective budget
`maxIterations.toNat`.  `maxNodeCount` is accepted and never read — exactly
as in the source. -/
def FindPathToo (dist : CLTVector → CLTVector → ℚ) (sys : CLTNavMeshSystem)
    (start endPos : CLTVector) (maxIterations _maxNodeCount : Int) :
    PathFindResult × CLTNavMeshSystem × Option CLTNavMeshPath :=
  let sys := { sys with m_openList := [], m_closedList := [] }
  let startPolyId := FindPolygon sys start
  let endPolyId := FindPolygon sys endPos
  if startPolyId = 0 then (PATHFIND_INVALID_START, sys, none)
  else if endPolyId = 0 then (PATHFIND_INVALID_END, sys, none)
  else
    match AllocateNode sys.m_nodePool with
    | none => (PATHFIND_OUT_OF_NODES, sys, none)
    | some startIdx =>
      let heuristic := CalculateHeuristic dist start endPos
      let startNode : NavMeshPathNode :=
        { position := start
          polyId := startPolyId
          cost := 0
          heuristic := heuristic
          totalCost := heuristic
          parent := none }
      let sys :=
        { sys with
          m_nodePool := listModify sys.m_nodePool startIdx (fun _ => startNode) }
      let sys := { sys with m_openList := sys.m_openList ++ [startIdx] }
      astarLoop dist endPos endPolyId maxIterations.toNat sys

/-- `CLTNavMeshSystem::FindPath` (cpp lines 156-165): uses the stored default
options when none are supplied, then forwards only `maxIterations` and
`maxNodes` to `FindPathToo` (the area-flag masks in the options are dropped
here and never reach the search). -/
def FindPath (dist : CLTVector → CLTVector → ℚ) (sys : CLTNavMeshSystem)
    (start endPos : CLTVector) (pOptions : Option PathFindOptions) :
    PathFindResult × CLTNavMeshSystem × Option CLTNavMeshPath :=
  let options := pOptions.getD sys.m_defaultOptions
  FindPathToo dist sys start endPos (Int.ofNat options.maxIterations)
    (Int.ofNat options.maxNodes)

/-- Ordered insertion used to model `std::map::operator[]` key insertion. -/
def mapInsert (l : List (Nat × Nat)) (k v : Nat) : List (Nat × Nat) :=
  match l with
  | [] => [(k, v)]
  | (k', v') :: rest =>
    if k < k' then (k, v) :: (k', v') :: rest
    else if k = k' then (k, v) :: rest
    else (k', v') :: mapInsert rest k v

/-- `CLTNavMeshSystem::LoadNavMesh` (cpp lines 108-134): erase any existing
controller for `worldId`, create a fresh controller, store it, make it
active if no controller is active.  Always returns `true`.  (If the erased
controller was the active one, `m_pActiveController` is left dangling at the
old address — the source does not reset it.) -/
def LoadNavMesh (sys : CLTNavMeshSystem) (_pFilename : String)
    (worldId : Nat) : Bool × CLTNavMeshSystem :=
  let sys :=
    match sys.m_controllers.find? (fun pair => pair.1 = worldId) with
    | some _ =>
      { sys with m_controllers :=
          sys.m_controllers.filter (fun pair => pair.1 ≠ worldId) }
    | none => sys
  let pController := sys.m_nextController
  let sys := { sys with
    m_controllers := mapInsert sys.m_controllers worldId pController
    m_nextController := pController + 1 }
  let sys :=
    if sys.m_pActiveController = none then
      { sys with m_pActiveController := some pController }
    else sys
  (true, sys)

/-- `CLTNavMeshSystem::UnloadNavMesh` (cpp lines 136-154): fail when the
world has no controller; otherwise clear the active pointer if (and only if)
it points at this controller, then delete the map entry. -/
def UnloadNavMesh (sys : CLTNavMeshSystem) (worldId : Nat) :
    Bool × CLTNavMeshSystem :=
  match sys.m_controllers.find? (fun pair => pair.1 = worldId) with
  | none => (false, sys)
  | some pair =>
    let sys :=
      if sys.m_pActiveController = some pair.2 then
        { sys with m_pActiveController := none }
      else sys
    (true, { sys with m_controllers :=
        sys.m_controllers.filter (fun p => p.1 ≠ worldId) })

/-! ## Concrete scenarios

The polygon stores below realise the spec's two-polygon scenario (§8) and
small variations of it.  `m_polygons` is never populated by the source's
`LoadNavMesh` (its body is a TODO), so searches run against whatever the
store holds; the scenarios instantiate it directly. -/

/-- Stand-in metric used only in closed statements.  Every concrete run
evaluated in this file examines open lists of at most one element and never
reaches an open-list cost comparison, so the value of the metric never
influences control flow; the neighbouring theorems quantified over every
`dist` witness this. -/
def sqDist : CLTVector → CLTVector → ℚ := fun a b => a.DistanceSquared b

/-- Polygon A of the spec's two-polygon scenario: center (0,0,0), height 0,
neighbor B, walkable. -/
def polyA : NavMeshPoly :=
  { id := 1, vertices := [], center := ⟨0, 0, 0⟩, height := 0,
    neighbors := [2], flags := 0, area := AREA_WALKABLE }

/-- Polygon B of the spec's scenario variant: center (10,0,0), neighbor A,
area flags include `AREA_NO_NAVIGATION` (0x41 = walkable | no-navigation),
which the default exclusion mask excludes. -/
def polyB : NavMeshPoly :=
  { id := 2, vertices := [], center := ⟨10, 0, 0⟩, height := 0,
    neighbors := [1], flags := 0, area := AREA_WALKABLE + AREA_NO_NAVIGATION }

/-- Freshly constructed system whose store holds the A–B graph. -/
def sysAB : CLTNavMeshSystem :=
  { CLTNavMeshSystem.init with m_polygons := [(1, polyA), (2, polyB)] }

/-- Walkable polygon with id 1 at the origin whose only neighbor is
polygon 2. -/
def polyA3 : NavMeshPoly :=
  { id := 1, vertices := [], center := ⟨0, 0, 0⟩, height := 0,
    neighbors := [2], flags := 0, area := AREA_WALKABLE }

/-- Walkable polygon with id 2 at (3,0,0) whose only neighbor is
polygon 1. -/
def polyC3 : NavMeshPoly :=
  { id := 2, vertices := [], center := ⟨3, 0, 0⟩, height := 0,
    neighbors := [1], flags := 0, area := AREA_WALKABLE }

/-- Walkable polygon with id 2 at (3,0,0) with an empty neighbor list (a
dead end; the spec allows asymmetric adjacency — "symmetric by convention
though not enforced"). -/
def polyC3dead : NavMeshPoly :=
  { id := 2, vertices := [], center := ⟨3, 0, 0⟩, height := 0,
    neighbors := [], flags := 0, area := AREA_WALKABLE }

/-- Isolated walkable polygon with id 3 at (100,0,0): no neighbors, so it is
unreachable from polygons 1 and 2. -/
def polyD3 : NavMeshPoly :=
  { id := 3, vertices := [], center := ⟨100, 0, 0⟩, height := 0,
    neighbors := [], flags := 0, area := AREA_WALKABLE }

/-- System over the three-polygon graph 1 ↔ 2, 3 isolated.  The pool holds
8 all-free nodes instead of the constructor's 4096: `AllocateNode` scans only
up to the first free slot and no run below ever touches a slot beyond
index 1, so every evaluated behaviour is identical to the full-pool one
(the full pool is exercised by the C1 theorem below). -/
def sysPart : CLTNavMeshSystem :=
  { CLTNavMeshSystem.init with
    m_polygons := [(1, polyA3), (2, polyC3dead), (3, polyD3)]
    m_nodePool := List.replicate 8 default }

/-- The A–B graph of `sysAB` over the same truncated 8-node all-free pool. -/
def sysAB8 : CLTNavMeshSystem :=
  { CLTNavMeshSystem.init with
    m_polygons := [(1, polyA), (2, polyB)]
    m_nodePool := List.replicate 8 default }

/-- The same three-polygon graph with a node pool holding a single free
node — the state of a system whose pool has been depleted down to one free
node (nodes leak because `FreeNode` is never called). -/
def sysPool1 : CLTNavMeshSystem :=
  { CLTNavMeshSystem.init with
    m_polygons := [(1, polyA3), (2, polyC3), (3, polyD3)]
    m_nodePool := [default] }

/-- Modelled from the spec: the spec's containment test ("its vertical
coordinate falls within a global top/bottom band relative to the polygon's
height … and its horizontal projection lies within a fixed-radius disk
(default 2.0 units) of the polygon's center"), with the disk inclusive as in
`IsPositionInPolygon`.  Used only to state claims C7/C10 against the code. -/
def containsClaim (bottom top : ℚ) (position : CLTVector)
    (pr : Nat × NavMeshPoly) : Bool :=
  (!decide (position.y < pr.2.height + bottom ∨
      position.y > pr.2.height + top)) &&
    decide ((⟨position.x, 0, position.z⟩ : CLTVector).DistanceSquared
      ⟨pr.2.center.x, 0, pr.2.center.z⟩ ≤ 2 * 2)

/-- The containment test that `FindPolygon` actually honours at its default
search radius: the height band together with a *strict* 2.0-unit disk
(`distanceSq < bestDistanceSq` with `bestDistanceSq` initialised to
`2.0 * 2.0`). -/
def containsStrict (bottom top : ℚ) (position : CLTVector)
    (pr : Nat × NavMeshPoly) : Bool :=
  (!decide (position.y < pr.2.height + bottom ∨
      position.y > pr.2.height + top)) &&
    decide ((⟨position.x, 0, position.z⟩ : CLTVector).DistanceSquared
      ⟨pr.2.center.x, 0, pr.2.center.z⟩ < 2 * 2)

/-- Standalone walkable polygon with id 1 at the origin. -/
def polyO1 : NavMeshPoly :=
  { id := 1, vertices := [], center := ⟨0, 0, 0⟩, height := 0,
    neighbors := [], flags := 0, area := AREA_WALKABLE }

/-- Standalone walkable polygon with id 2 centered at (1,0,0); its disk
overlaps `polyO1`'s. -/
def polyO2 : NavMeshPoly :=
  { id := 2, vertices := [], center := ⟨1, 0, 0⟩, height := 0,
    neighbors := [], flags := 0, area := AREA_WALKABLE }

/-- Standalone walkable polygon carrying the store key 0. -/
def polyZero : NavMeshPoly :=
  { id := 0, vertices := [], center := ⟨0, 0, 0⟩, height := 0,
    neighbors := [], flags := 0, area := AREA_WALKABLE }

/-- Standalone walkable polygon with id 4 whose height is 7. -/
def polyHigh : NavMeshPoly :=
  { id := 4, vertices := [], center := ⟨0, 7, 0⟩, height := 7,
    neighbors := [], flags := 0, area := AREA_WALKABLE }

/-- Freshly constructed system holding only `polyO1`. -/
def sysOne : CLTNavMeshSystem :=
  { CLTNavMeshSystem.init with m_polygons := [(1, polyO1)] }

/-- Freshly constructed system holding the overlapping `polyO1`, `polyO2`. -/
def sysTwo : CLTNavMeshSystem :=
  { CLTNavMeshSystem.init with m_polygons := [(1, polyO1), (2, polyO2)] }

/-- Freshly constructed system whose only polygon is stored under key 0. -/
def sysZero : CLTNavMeshSystem :=
  { CLTNavMeshSystem.init with m_polygons := [(0, polyZero)] }

/-- Freshly constructed system holding only `polyHigh`. -/
def sysHigh : CLTNavMeshSystem :=
  { CLTNavMeshSystem.init with m_polygons := [(4, polyHigh)] }

/-! ## Helper lemmas -/

theorem nodeAt_listModify_const (l : List NavMeshPathNode) (i : Nat)
    (v : NavMeshPathNode) (h : i < l.length) :
    nodeAt (listModify l i (fun _ => v)) i = v := by
  induction l generalizing i with
  | nil => simp at h
  | cons a t ih =>
    cases i with
    | zero => rfl
    | succ n =>
      have hn : n < t.length := by simpa using h
      simpa [listModify, nodeAt, List.getD] using ih n hn

theorem allocScan_some_bounds (l : List NavMeshPathNode) :
    ∀ b j, allocScan l b = some j → b ≤ j ∧ j < b + l.length := by
  induction l with
  | nil => intro b j h; simp [allocScan] at h
  | cons a t ih =>
    intro b j h
    by_cases hp : a.parent = none
    · simp [allocScan, hp] at h
      simp [List.length_cons]
      omega
    · simp [allocScan, hp] at h
      have hb := ih (b + 1) j h
      simp [List.length_cons]
      omega

theorem AllocateNode_lt_length (pool : List NavMeshPathNode) (i : Nat)
    (h : AllocateNode pool = some i) : i < pool.length := by
  have := allocScan_some_bounds pool 0 i h
  omega

theorem astarLoop_singleton_goal (dist : CLTVector → CLTVector → ℚ)
    (endPos : CLTVector) (endPolyId : Nat) (f : Nat)
    (sys : CLTNavMeshSystem) (i : Nat)
    (hopen : sys.m_openList = [i])
    (hpoly : (nodeAt sys.m_nodePool i).polyId = endPolyId) :
    (astarLoop dist endPos endPolyId (f + 1) sys).1 = PATHFIND_SUCCESS := by
  unfold astarLoop iterStep
  rw [hopen]
  simp [minElementPos, minPosAux, hpoly]

theorem findPathToo_same_poly (dist : CLTVector → CLTVector → ℚ)
    (sys : CLTNavMeshSystem) (s e : CLTVector) (k n : Int) (i : Nat)
    (hse : FindPolygon sys e = FindPolygon sys s)
    (hne : FindPolygon sys s ≠ 0)
    (halloc : AllocateNode sys.m_nodePool = some i)
    (hk : 1 ≤ k) :
    (FindPathToo dist sys s e k n).1 = PATHFIND_SUCCESS := by
  obtain ⟨f, hf⟩ : ∃ f, k.toNat = f + 1 := ⟨k.toNat - 1, by omega⟩
  have hclearS : FindPolygon { sys with m_openList := [], m_closedList := [] } s
      = FindPolygon sys s := rfl
  have hclearE : FindPolygon { sys with m_openList := [], m_closedList := [] } e
      = FindPolygon sys e := rfl
  unfold FindPathToo
  dsimp only
  rw [hclearS, hclearE, hse]
  rw [if_neg hne, if_neg hne]
  rw [show AllocateNode ({ sys with m_openList := [], m_closedList := [] } :
    CLTNavMeshSystem).m_nodePool = some i from halloc]
  rw [hf]
  apply astarLoop_singleton_goal
  · rfl
  · have hlen : i < sys.m_nodePool.length := AllocateNode_lt_length _ _ halloc
    rw [nodeAt_listModify_const sys.m_nodePool i _ hlen]

theorem FindPathToo_def (dist : CLTVector → CLTVector → ℚ)
    (sys : CLTNavMeshSystem) (s e : CLTVector) (k n : Int) :
    FindPathToo dist sys s e k n =
      (if FindPolygon sys s = 0 then
        (PATHFIND_INVALID_START,
          { sys with m_openList := [], m_closedList := [] }, none)
      else if FindPolygon sys e = 0 then
        (PATHFIND_INVALID_END,
          { sys with m_openList := [], m_closedList := [] }, none)
      else
        match AllocateNode sys.m_nodePool with
        | none =>
          (PATHFIND_OUT_OF_NODES,
            { sys with m_openList := [], m_closedList := [] }, none)
        | some startIdx =>
          astarLoop dist e (FindPolygon sys e) k.toNat
            { sys with
              m_nodePool := listModify sys.m_nodePool startIdx (fun _ =>
                { position := s
                  polyId := FindPolygon sys s
                  cost := 0
                  heuristic := CalculateHeuristic dist s e
                  totalCost := CalculateHeuristic dist s e
                  parent := none })
              m_openList := [startIdx]
              m_closedList := [] }) :=
  rfl

theorem astarLoop_of_empty (dist : CLTVector → CLTVector → ℚ)
    (endPos : CLTVector) (endPolyId : Nat) (sys : CLTNavMeshSystem)
    (h : sys.m_openList.isEmpty = true) :
    ∀ f, astarLoop dist endPos endPolyId f sys = (PATHFIND_NO_PATH, sys, none) := by
  intro f
  cases f with
  | zero => unfold astarLoop; rw [if_pos h]
  | succ f => unfold astarLoop iterStep; rw [if_pos h]

theorem astarLoop_success_mono (dist : CLTVector → CLTVector → ℚ)
    (endPos : CLTVector) (endPolyId : Nat) :
    ∀ f m sys, (astarLoop dist endPos endPolyId f sys).1 = PATHFIND_SUCCESS →
      (astarLoop dist endPos endPolyId (f + m) sys).1 = PATHFIND_SUCCESS := by
  intro f
  induction f with
  | zero =>
    intro m sys h
    exfalso
    unfold astarLoop at h
    split at h <;> simp_all
  | succ f ih =>
    intro m sys h
    rw [show f + 1 + m = (f + m) + 1 from by omega]
    unfold astarLoop at h ⊢
    cases hstep : iterStep dist endPos endPolyId sys.m_openList.length sys with
    | noPath s' => simp_all
    | success j s' => rfl
    | outOfNodes s' => simp_all
    | next s' => rw [hstep] at h; exact ih m s' h

theorem astarLoop_noPath_mono (dist : CLTVector → CLTVector → ℚ)
    (endPos : CLTVector) (endPolyId : Nat) :
    ∀ f m sys, (astarLoop dist endPos endPolyId f sys).1 = PATHFIND_NO_PATH →
      (astarLoop dist endPos endPolyId (f + m) sys).1 = PATHFIND_NO_PATH := by
  intro f
  induction f with
  | zero =>
    intro m sys h
    have hempty : sys.m_openList.isEmpty = true := by
      unfold astarLoop at h
      by_cases he : sys.m_openList.isEmpty = true
      · exact he
      · rw [if_neg he] at h; simp at h
    rw [astarLoop_of_empty dist endPos endPolyId sys hempty]
  | succ f ih =>
    intro m sys h
    rw [show f + 1 + m = (f + m) + 1 from by omega]
    unfold astarLoop at h ⊢
    cases hstep : iterStep dist endPos endPolyId sys.m_openList.length sys with
    | noPath s' => rfl
    | success j s' => simp_all
    | outOfNodes s' => simp_all
    | next s' => rw [hstep] at h; exact ih m s' h

theorem distanceSquared_nonneg (a b : CLTVector) :
    0 ≤ a.DistanceSquared b := by
  unfold CLTVector.DistanceSquared CLTVector.LengthSquared
  have hx := mul_self_nonneg ((a.sub b).x)
  have hy := mul_self_nonneg ((a.sub b).y)
  have hz := mul_self_nonneg ((a.sub b).z)
  linarith

theorem findPolygonStep_absorb (bottom top : ℚ) (position : CLTVector)
    (i : Nat) (pr : Nat × NavMeshPoly) :
    findPolygonStep bottom top position (i, 0) pr = (i, 0) := by
  unfold findPolygonStep
  by_cases hh : position.y < pr.2.height + bottom ∨ position.y > pr.2.height + top
  · rw [if_pos hh]
  · rw [if_neg hh]
    have hge := distanceSquared_nonneg
      (⟨position.x, 0, position.z⟩ : CLTVector) ⟨pr.2.center.x, 0, pr.2.center.z⟩
    rw [if_neg (by simpa using not_lt.mpr hge)]

theorem findPolygon_fold_absorb (bottom top : ℚ) (position : CLTVector)
    (i : Nat) :
    ∀ l : List (Nat × NavMeshPoly),
      l.foldl (findPolygonStep bottom top position) (i, 0) = (i, 0) := by
  intro l
  induction l with
  | nil => rfl
  | cons pr t ih =>
    rw [List.foldl_cons, findPolygonStep_absorb bottom top position i pr, ih]

theorem findPolygonStep_skip (bottom top : ℚ) (position : CLTVector)
    (pr : Nat × NavMeshPoly)
    (hf : containsStrict bottom top position pr = false) :
    findPolygonStep bottom top position (0, 2 * 2) pr = (0, 2 * 2) := by
  unfold findPolygonStep
  unfold containsStrict at hf
  by_cases hh : position.y < pr.2.height + bottom ∨ position.y > pr.2.height + top
  · rw [if_pos hh]
  · rw [decide_eq_false hh] at hf
    simp only [Bool.not_false, Bool.true_and] at hf
    have hd := of_decide_eq_false hf
    rw [if_neg hh, if_neg (by simpa using hd)]

theorem findPolygonStep_hit (bottom top : ℚ) (position : CLTVector)
    (pr : Nat × NavMeshPoly)
    (ht : containsStrict bottom top position pr = true) :
    findPolygonStep bottom top position (0, 2 * 2) pr = (pr.1, 0) := by
  unfold findPolygonStep
  unfold containsStrict at ht
  simp only [Bool.and_eq_true, Bool.not_eq_true', decide_eq_false_iff_not,
    decide_eq_true_eq] at ht
  obtain ⟨hh, hd⟩ := ht
  rw [if_neg hh, if_pos (by simpa using hd)]
  have hin : IsPositionInPolygon position pr.2 = true := by
    unfold IsPositionInPolygon
    simpa using le_of_lt hd
  rw [if_pos hin]

theorem findPolygon_first_strict_aux (bottom top : ℚ) (position : CLTVector) :
    ∀ (l : List (Nat × NavMeshPoly)) (pr : Nat × NavMeshPoly),
      l.find? (containsStrict bottom top position) = some pr →
      (l.foldl (findPolygonStep bottom top position) (0, 2 * 2)).1 = pr.1 := by
  intro l
  induction l with
  | nil => intro pr h; simp at h
  | cons a t ih =>
    intro pr h
    rw [List.find?_cons] at h
    cases hc : containsStrict bottom top position a with
    | true =>
      rw [hc] at h
      simp only [Option.some.injEq] at h
      subst h
      rw [List.foldl_cons, findPolygonStep_hit bottom top position a hc,
        findPolygon_fold_absorb bottom top position a.1 t]
    | false =>
      rw [hc] at h
      rw [List.foldl_cons, findPolygonStep_skip bottom top position a hc]
      exact ih pr h

theorem findPolygon_first_strict (sys : CLTNavMeshSystem)
    (position : CLTVector) (pr : Nat × NavMeshPoly)
    (h : sys.m_polygons.find?
      (containsStrict sys.m_checkNavMeshBottom sys.m_checkNavMeshTop position)
      = some pr) :
    FindPolygon sys position = pr.1 := by
  unfold FindPolygon
  exact findPolygon_first_strict_aux _ _ _ _ _ h

theorem astarLoop_result_not_invalid (dist : CLTVector → CLTVector → ℚ)
    (endPos : CLTVector) (endPolyId : Nat) :
    ∀ (f : Nat) (sys : CLTNavMeshSystem),
      (astarLoop dist endPos endPolyId f sys).1 ≠ PATHFIND_INVALID_START ∧
      (astarLoop dist endPos endPolyId f sys).1 ≠ PATHFIND_INVALID_END := by
  intro f
  induction f with
  | zero =>
    intro sys
    unfold astarLoop
    by_cases h : sys.m_openList.isEmpty = true
    · rw [if_pos h]; exact ⟨by simp, by simp⟩
    · rw [if_neg h]; exact ⟨by simp, by simp⟩
  | succ f ih =>
    intro sys
    unfold astarLoop
    cases hstep : iterStep dist endPos endPolyId sys.m_openList.length sys with
    | noPath s' => exact ⟨by simp, by simp⟩
    | success j s' => exact ⟨by simp, by simp⟩
    | outOfNodes s' => exact ⟨by simp, by simp⟩
    | next s' => exact ih s'

theorem findPolygon_fold_zero_keys (bottom top : ℚ) (position : CLTVector) :
    ∀ (l : List (Nat × NavMeshPoly)) (acc : Nat × ℚ),
      (∀ pr ∈ l, pr.1 = 0) → acc.1 = 0 →
      (l.foldl (findPolygonStep bottom top position) acc).1 = 0 := by
  intro l
  induction l with
  | nil => intro acc _ ha; simpa using ha
  | cons a t ih =>
    intro acc hall ha
    rw [List.foldl_cons]
    have ha0 : a.1 = 0 := hall a (by simp)
    apply ih
    · intro pr hpr; exact hall pr (by simp [hpr])
    · unfold findPolygonStep
      by_cases hh : position.y < a.2.height + bottom ∨ position.y > a.2.height + top
      · rw [if_pos hh]; exact ha
      · rw [if_neg hh]
        by_cases hd : (⟨position.x, 0, position.z⟩ : CLTVector).DistanceSquared
            ⟨a.2.center.x, 0, a.2.center.z⟩ < acc.2
        · rw [if_pos hd]
          by_cases hin : IsPositionInPolygon position a.2 = true
          · rw [if_pos hin]; exact ha0
          · rw [if_neg hin, if_pos ha]; exact ha0
        · rw [if_neg hd]; exact ha

theorem findPolygon_zero_keys (sys : CLTNavMeshSystem) (position : CLTVector)
    (maxDistance : ℚ) (h : ∀ pr ∈ sys.m_polygons, pr.1 = 0) :
    FindPolygon sys position maxDistance = 0 := by
  unfold FindPolygon
  exact findPolygon_fold_zero_keys _ _ _ _ _ h rfl

theorem mapInsert_find_self (w v : Nat) :
    ∀ l : List (Nat × Nat), (∀ p ∈ l, p.1 ≠ w) →
      (mapInsert l w v).find? (fun p => p.1 = w) = some (w, v) := by
  intro l
  induction l with
  | nil => intro _; simp [mapInsert]
  | cons a t ih =>
    intro hall
    unfold mapInsert
    by_cases hlt : w < a.1
    · rw [if_pos hlt]
      simp [List.find?_cons]
    · rw [if_neg hlt]
      have hne : a.1 ≠ w := hall a (by simp)
      rw [if_neg (fun he => hne he.symm)]
      rw [List.find?_cons]
      have : (decide (a.1 = w)) = false := decide_eq_false hne
      rw [this]
      exact ih (fun p hp => hall p (by simp [hp]))

theorem minPosAux_lt (pool : List NavMeshPathNode) :
    ∀ (l : List Nat) (c b : Nat) (v : ℚ), b < c →
      minPosAux pool l c b v < c + l.length := by
  intro l
  induction l with
  | nil => intro c b v h; simpa using h
  | cons i rest ih =>
    intro c b v h
    unfold minPosAux
    rw [List.length_cons]
    by_cases hc : totalCostAt pool i < v
    · rw [if_pos hc]
      have := ih (c + 1) c (totalCostAt pool i) (by omega)
      omega
    · rw [if_neg hc]
      have := ih (c + 1) b v (by omega)
      omega

theorem minElementPos_lt (pool : List NavMeshPathNode)
    (openList : List Nat) (h : openList ≠ []) :
    minElementPos pool openList < openList.length := by
  cases openList with
  | nil => exact absurd rfl h
  | cons first rest =>
    show minPosAux pool rest 1 0 (totalCostAt pool first) < (first :: rest).length
    rw [List.length_cons]
    have := minPosAux_lt pool rest 1 0 (totalCostAt pool first) (by omega)
    omega

theorem iterStep_gas_congr (dist : CLTVector → CLTVector → ℚ)
    (endPos : CLTVector) (endPolyId : Nat) :
    ∀ (len : Nat) (sys : CLTNavMeshSystem) (g g2 : Nat),
      sys.m_openList.length = len → len ≤ g → len ≤ g2 →
      iterStep dist endPos endPolyId g sys =
        iterStep dist endPos endPolyId g2 sys := by
  intro len
  induction len using Nat.strong_induction_on with
  | _ len ih =>
    intro sys g g2 hlen hg hg2
    by_cases he : sys.m_openList.isEmpty
    · unfold iterStep; rw [if_pos he, if_pos he]
    · have hne : sys.m_openList ≠ [] := by
        cases hL : sys.m_openList with
        | nil => rw [hL] at he; simp at he
        | cons a t => simp
      have hposlt := minElementPos_lt sys.m_nodePool sys.m_openList hne
      have hlen1 : 1 ≤ len := hlen ▸ List.length_pos.mpr hne
      unfold iterStep
      rw [if_neg he, if_neg he]
      dsimp only
      by_cases hgoal : (nodeAt sys.m_nodePool
          (sys.m_openList.getD (minElementPos sys.m_nodePool sys.m_openList)
            0)).polyId = endPolyId
      · rw [if_pos hgoal, if_pos hgoal]
      · rw [if_neg hgoal, if_neg hgoal]
        cases hget : GetPolygon
            { sys with
              m_openList := sys.m_openList.eraseIdx
                (minElementPos sys.m_nodePool sys.m_openList)
              m_closedList := sys.m_closedList ++
                [sys.m_openList.getD
                  (minElementPos sys.m_nodePool sys.m_openList) 0] }
            (nodeAt sys.m_nodePool
              (sys.m_openList.getD
                (minElementPos sys.m_nodePool sys.m_openList) 0)).polyId with
        | some p => rfl
        | none =>
          obtain ⟨g0, rfl⟩ : ∃ g0, g = g0 + 1 := ⟨g - 1, by omega⟩
          obtain ⟨h0, rfl⟩ : ∃ h0, g2 = h0 + 1 := ⟨g2 - 1, by omega⟩
          refine ih (len - 1) (by omega) _ g0 h0 ?_ (by omega) (by omega)
          show (sys.m_openList.eraseIdx
            (minElementPos sys.m_nodePool sys.m_openList)).length = len - 1
          rw [List.length_eraseIdx, if_pos hposlt, hlen]

/-! ## C1 — area-flag filtering -/

/-- C1: refuted — `FindPathToo` performs no area-flag filtering at all
(neither mask of `PathFindOptions` ever reaches it; `FindPath` forwards only
`maxIterations` and `maxNodes`).  In the spec's scenario — polygon B carries
`AREA_NO_NAVIGATION`, the default options' exclusion mask excludes it — the
search expands B anyway and `FindPath` from A's center to B's center returns
`PATHFIND_SUCCESS`, not `PATHFIND_NO_PATH`, for every metric `dist`. -/
theorem findPath_ignores_area_flags :
    ∀ dist : CLTVector → CLTVector → ℚ,
      (FindPath dist sysAB ⟨0, 0, 0⟩ ⟨10, 0, 0⟩ none).1 = PATHFIND_SUCCESS :=
  fun _ => by with_unfolding_all rfl

/-! ## C2 — node release on `OutOfNodes` -/

/-- C2: refuted — a search that dies with `PATHFIND_OUT_OF_NODES` releases
nothing: the source returns straight out of the expansion loop (line 286)
and contains no call to `FreeNode` whatsoever.  Witnessed on a pool with one
free node: the query seeds the root there, recycles it for the first
expansion (marking it in use), then fails to allocate for the second
expansion.  The pool had 1 free node before the query and 0 after it.
(The run branches on no metric value, so the stand-in metric `sqDist` is
immaterial.) -/
theorem outOfNodes_leaks_nodes :
    ((FindPathToo sqDist sysPool1 ⟨0, 0, 0⟩ ⟨100, 0, 0⟩ 10 4096).1,
      freeNodeCount
        (FindPathToo sqDist sysPool1 ⟨0, 0, 0⟩ ⟨100, 0, 0⟩ 10 4096).2.1.m_nodePool,
      freeNodeCount sysPool1.m_nodePool) =
    (PATHFIND_OUT_OF_NODES, 0, 1) := by
  with_unfolding_all rfl

/-! ## C3 — free-node sentinel invariant -/

/-- C3: refuted — the root node is seeded with `parent = nullptr`
(cpp line 207), which is exactly the pool's "free" sentinel, while sitting in
the open list; the very next `AllocateNode` hands that same node out again.
Observable consequence in the A–B run: the closed list ends as `[0, 0]` (the
same pool node was popped twice in one query), and pool node 0 ends as B's
node (`polyId = 2`) whose parent pointer is itself (`some 0`). -/
theorem allocate_hands_out_live_root :
    ((FindPathToo sqDist sysAB8 ⟨0, 0, 0⟩ ⟨10, 0, 0⟩ 2000 4096).1,
      (FindPathToo sqDist sysAB8 ⟨0, 0, 0⟩ ⟨10, 0, 0⟩ 2000 4096).2.1.m_closedList,
      (nodeAt (FindPathToo sqDist sysAB8 ⟨0, 0, 0⟩ ⟨10, 0, 0⟩
        2000 4096).2.1.m_nodePool 0).polyId,
      (nodeAt (FindPathToo sqDist sysAB8 ⟨0, 0, 0⟩ ⟨10, 0, 0⟩
        2000 4096).2.1.m_nodePool 0).parent) =
    (PATHFIND_SUCCESS, [0, 0], 2, some 0) := by
  with_unfolding_all rfl

/-! ## C4 — partial-path selection on budget exhaustion -/

/-- C4: the result codes behave as claimed — budget exhausted with a
non-empty open set yields `PATHFIND_PARTIAL`, an emptied open set yields
`PATHFIND_NO_PATH` — but the returned "best partial path" is a
default-constructed `CLTNavMeshPath` (a class with no members), produced by
the `GetBestPartialPath` stub without ever inspecting the open list, so it
does not (and cannot) end at the open-set member with the smallest
heuristic. -/
theorem partial_path_is_stub :
    ((FindPathToo sqDist sysPart ⟨0, 0, 0⟩ ⟨100, 0, 0⟩ 1 4096).1,
      (FindPathToo sqDist sysPart ⟨0, 0, 0⟩ ⟨100, 0, 0⟩ 1 4096).2.2,
      (FindPathToo sqDist sysPart ⟨0, 0, 0⟩ ⟨100, 0, 0⟩ 2 4096).1) =
    (PATHFIND_PARTIAL, some {}, PATHFIND_NO_PATH) := by
  with_unfolding_all rfl

/-! ## C5 — same-polygon query -/

/-- C5: the result-code half of the claim holds — for every metric, system
state, and pair of positions resolving to the same nonzero polygon, given a
free pool node and a positive default iteration budget, `FindPath` returns
`PATHFIND_SUCCESS` (the root node is popped first and immediately matches the
goal polygon).  The claimed one-waypoint path, however, cannot be produced:
`ReconstructPath` is a TODO stub returning a default `CLTNavMeshPath`, a
class with no members, so the returned path carries no waypoints at all. -/
theorem findPath_same_polygon_succeeds (dist : CLTVector → CLTVector → ℚ)
    (sys : CLTNavMeshSystem) (s e : CLTVector) (i : Nat)
    (hse : FindPolygon sys e = FindPolygon sys s)
    (hne : FindPolygon sys s ≠ 0)
    (halloc : AllocateNode sys.m_nodePool = some i)
    (hiter : 1 ≤ sys.m_defaultOptions.maxIterations) :
    (FindPath dist sys s e none).1 = PATHFIND_SUCCESS := by
  have hdef : FindPath dist sys s e none =
      FindPathToo dist sys s e (Int.ofNat sys.m_defaultOptions.maxIterations)
        (Int.ofNat sys.m_defaultOptions.maxNodes) := rfl
  rw [hdef]
  refine findPathToo_same_poly dist sys s e _ _ i hse hne halloc ?_
  exact Int.ofNat_le.mpr hiter

set_option maxHeartbeats 1600000 in
theorem findPath_same_polygon_succeeds_witness :
    FindPolygon sysOne ⟨0, 0, 1⟩ = FindPolygon sysOne ⟨1, 0, 0⟩ ∧
    FindPolygon sysOne ⟨1, 0, 0⟩ ≠ 0 ∧
    AllocateNode sysOne.m_nodePool = some 0 ∧
    1 ≤ sysOne.m_defaultOptions.maxIterations ∧
    (FindPath sqDist sysOne ⟨1, 0, 0⟩ ⟨0, 0, 1⟩ none).1 = PATHFIND_SUCCESS := by
  have ha : FindPolygon sysOne ⟨0, 0, 1⟩ = 1 := by with_unfolding_all rfl
  have hb : FindPolygon sysOne ⟨1, 0, 0⟩ = 1 := by with_unfolding_all rfl
  have h1 : FindPolygon sysOne ⟨0, 0, 1⟩ = FindPolygon sysOne ⟨1, 0, 0⟩ :=
    ha.trans hb.symm
  have h2 : FindPolygon sysOne ⟨1, 0, 0⟩ ≠ 0 := by rw [hb]; decide
  have h3 : AllocateNode sysOne.m_nodePool = some 0 := by with_unfolding_all rfl
  have h4 : 1 ≤ sysOne.m_defaultOptions.maxIterations := by decide
  exact ⟨h1, h2, h3, h4,
    findPath_same_polygon_succeeds sqDist sysOne ⟨1, 0, 0⟩ ⟨0, 0, 1⟩ 0 h1 h2 h3 h4⟩

/-! ## C6 — budget monotonicity -/

/-- C6 counterexample: on the graph 1 → 2 (dead end), 3 isolated, the query
from polygon 1's center to polygon 3's center yields `PATHFIND_PARTIAL` at
budget 1 but `PATHFIND_NO_PATH` at the larger budget 2 — raising the budget
*can* turn `PartialExhausted` into `NoPath`, refuting that part of the
claim. -/
theorem raising_budget_turns_partial_into_noPath :
    (FindPathToo sqDist sysPart ⟨0, 0, 0⟩ ⟨100, 0, 0⟩ 1 4096).1 =
        PATHFIND_PARTIAL ∧
      (1 : Int) < 2 ∧
      (FindPathToo sqDist sysPart ⟨0, 0, 0⟩ ⟨100, 0, 0⟩ 2 4096).1 =
        PATHFIND_NO_PATH := by
  refine ⟨?_, by decide, ?_⟩
  · with_unfolding_all rfl
  · with_unfolding_all rfl

/-- C6 (amended): raising the iteration budget of an otherwise-identical
`FindPathToo` query preserves `PATHFIND_SUCCESS` and preserves
`PATHFIND_NO_PATH` — so a `Succeeded` result never degrades and `NoPath`
never becomes `PartialExhausted`; but (contrary to the original claim) a
`PartialExhausted` result may turn into `NoPath`, as the counterexample
shows. -/
theorem findPathToo_budget_mono (dist : CLTVector → CLTVector → ℚ)
    (sys : CLTNavMeshSystem) (s e : CLTVector) (n : Int) (k kBig : Int)
    (hk : k ≤ kBig) :
    ((FindPathToo dist sys s e k n).1 = PATHFIND_SUCCESS →
      (FindPathToo dist sys s e kBig n).1 = PATHFIND_SUCCESS) ∧
    ((FindPathToo dist sys s e k n).1 = PATHFIND_NO_PATH →
      (FindPathToo dist sys s e kBig n).1 = PATHFIND_NO_PATH) := by
  obtain ⟨m, hm⟩ := Nat.le.dest (Int.toNat_le_toNat hk)
  rw [FindPathToo_def dist sys s e k n, FindPathToo_def dist sys s e kBig n]
  by_cases h0 : FindPolygon sys s = 0
  · simp [h0]
  · by_cases h1 : FindPolygon sys e = 0
    · simp [h0, h1]
    · rw [if_neg h0, if_neg h1, if_neg h0, if_neg h1]
      cases halloc : AllocateNode sys.m_nodePool with
      | none => simp
      | some startIdx =>
        rw [← hm]
        exact ⟨astarLoop_success_mono dist e (FindPolygon sys e) k.toNat m _,
          astarLoop_noPath_mono dist e (FindPolygon sys e) k.toNat m _⟩

theorem findPathToo_budget_mono_witness :
    (2 : Int) ≤ 3 ∧
      (FindPathToo sqDist sysAB8 ⟨0, 0, 0⟩ ⟨10, 0, 0⟩ 3 4096).1 =
        PATHFIND_SUCCESS := by
  refine ⟨by decide, ?_⟩
  refine (findPathToo_budget_mono sqDist sysAB8 ⟨0, 0, 0⟩ ⟨10, 0, 0⟩ 4096 2 3
    (by decide)).1 ?_
  with_unfolding_all rfl

/-! ## C7 — containment and validity -/

/-- C7 counterexample: position (2,0,0) satisfies the spec's containment
test for the origin polygon (horizontal distance exactly 2.0, inclusive
disk, height in band) yet `IsPositionValid` returns `(false, 0)`, because
`FindPolygon` admits a polygon only when `distanceSq < maxDistance²` with
the default `maxDistance = 2.0` — the disk boundary is excluded.  And when
two loaded polygons both contain a position, the id written is the first
(lowest-key) one: polygon 2 contains (1,0,0) but the query reports id 1. -/
theorem containment_boundary_counterexample :
    containsClaim (-50) 50 ⟨2, 0, 0⟩ (1, polyO1) = true ∧
    IsPositionValid sysOne ⟨2, 0, 0⟩ = (false, 0) ∧
    containsClaim (-50) 50 ⟨1, 0, 0⟩ (2, polyO2) = true ∧
    IsPositionValid sysTwo ⟨1, 0, 0⟩ = (true, 1) := by
  refine ⟨?_, ?_, ?_, ?_⟩ <;> with_unfolding_all rfl

/-- C7 (amended): if the store's `find?` — which scans entries in iteration
order, i.e. increasing key order for a `std::map` — locates an entry whose
polygon passes the height-band test and whose center is *strictly* within
2.0 horizontal units of the position, and that entry's key is nonzero, then
`IsPositionValid` returns `true` and writes exactly that entry's key.  In
particular, when a unique loaded polygon strictly contains the position, its
id is reported, as the claim intends. -/
theorem isPositionValid_first_strict (sys : CLTNavMeshSystem)
    (position : CLTVector) (pr : Nat × NavMeshPoly)
    (h : sys.m_polygons.find?
      (containsStrict sys.m_checkNavMeshBottom sys.m_checkNavMeshTop position)
      = some pr)
    (hne : pr.1 ≠ 0) :
    IsPositionValid sys position = (true, pr.1) := by
  unfold IsPositionValid
  rw [findPolygon_first_strict sys position pr h]
  simp [hne]

theorem isPositionValid_first_strict_witness :
    sysTwo.m_polygons.find?
        (containsStrict sysTwo.m_checkNavMeshBottom sysTwo.m_checkNavMeshTop
          ⟨1, 0, 0⟩) = some (1, polyO1) ∧
      (1 : Nat) ≠ 0 ∧
      IsPositionValid sysTwo ⟨1, 0, 0⟩ = (true, 1) := by
  have h1 : sysTwo.m_polygons.find?
      (containsStrict sysTwo.m_checkNavMeshBottom sysTwo.m_checkNavMeshTop
        ⟨1, 0, 0⟩) = some (1, polyO1) := by with_unfolding_all rfl
  exact ⟨h1, by decide,
    isPositionValid_first_strict sysTwo ⟨1, 0, 0⟩ (1, polyO1) h1 (by decide)⟩

/-! ## C8 — world registry activation -/

/-- C8: a successful `LoadNavMesh` performed while no controller is active
returns `true`, makes the freshly created controller (the next fresh
address) the active one, and maps the world id to it; `UnloadNavMesh` of the
world whose controller is the active one returns `true`, clears the active
pointer to none — promoting no other loaded world — and removes exactly that
world's entry. -/
theorem load_unload_active_transitions :
    (∀ (sys : CLTNavMeshSystem) (f : String) (w : Nat),
      sys.m_pActiveController = none →
        (LoadNavMesh sys f w).1 = true ∧
        (LoadNavMesh sys f w).2.m_pActiveController =
          some sys.m_nextController ∧
        (LoadNavMesh sys f w).2.m_controllers.find? (fun p => p.1 = w) =
          some (w, sys.m_nextController)) ∧
    (∀ (sys : CLTNavMeshSystem) (w c : Nat),
      sys.m_controllers.find? (fun p => p.1 = w) = some (w, c) →
      sys.m_pActiveController = some c →
        (UnloadNavMesh sys w).1 = true ∧
        (UnloadNavMesh sys w).2.m_pActiveController = none ∧
        (UnloadNavMesh sys w).2.m_controllers =
          sys.m_controllers.filter (fun p => p.1 ≠ w)) := by
  constructor
  · intro sys f w h
    unfold LoadNavMesh
    dsimp only
    cases hfind : sys.m_controllers.find? (fun p => decide (p.1 = w)) with
    | some a =>
      rw [h]
      refine ⟨rfl, rfl, ?_⟩
      apply mapInsert_find_self
      intro p hp he
      have := (List.mem_filter.mp hp).2
      rw [he] at this
      simp at this
    | none =>
      rw [h]
      refine ⟨rfl, rfl, ?_⟩
      apply mapInsert_find_self
      intro p hp he
      have := List.find?_eq_none.mp hfind p hp
      exact this (decide_eq_true he)
  · intro sys w c hf ha
    unfold UnloadNavMesh
    rw [hf]
    dsimp only
    rw [if_pos ha]
    exact ⟨rfl, rfl, rfl⟩

theorem load_unload_active_transitions_witness :
    CLTNavMeshSystem.init.m_pActiveController = none ∧
    (LoadNavMesh CLTNavMeshSystem.init "mesh" 5).2.m_pActiveController =
      some CLTNavMeshSystem.init.m_nextController ∧
    (LoadNavMesh CLTNavMeshSystem.init "mesh" 5).2.m_controllers.find?
      (fun p => p.1 = 5) = some (5, 0) ∧
    (LoadNavMesh CLTNavMeshSystem.init "mesh" 5).2.m_pActiveController =
      some 0 ∧
    (UnloadNavMesh (LoadNavMesh CLTNavMeshSystem.init "mesh" 5).2
      5).2.m_pActiveController = none := by
  have h0 : CLTNavMeshSystem.init.m_pActiveController = none := rfl
  have hf : (LoadNavMesh CLTNavMeshSystem.init "mesh" 5).2.m_controllers.find?
      (fun p => p.1 = 5) = some (5, 0) := by with_unfolding_all rfl
  have ha : (LoadNavMesh CLTNavMeshSystem.init "mesh" 5).2.m_pActiveController =
      some 0 := by with_unfolding_all rfl
  exact ⟨h0, (load_unload_active_transitions.1 CLTNavMeshSystem.init "mesh" 5 h0).2.1,
    hf, ha,
    (load_unload_active_transitions.2 (LoadNavMesh CLTNavMeshSystem.init "mesh" 5).2
      5 0 hf ha).2.1⟩

/-! ## C9 — nearest valid position -/

/-- C9: whenever `FindNearestValidPosition` produces a result, the result
keeps the input's horizontal components unchanged and replaces only the
vertical coordinate with the found polygon's height; and when no polygon is
found within `maxDistance` (the resolved id is the 0 sentinel) it returns
`none`, writing nothing. -/
theorem nearestValidPosition_snaps_height (sys : CLTNavMeshSystem)
    (position : CLTVector) (maxDistance : ℚ) :
    (∀ r, FindNearestValidPosition sys position maxDistance = some r →
      r.x = position.x ∧ r.z = position.z ∧
      ∃ poly, GetPolygon sys (FindPolygon sys position maxDistance) = some poly ∧
        r.y = poly.height) ∧
    (FindPolygon sys position maxDistance = 0 →
      FindNearestValidPosition sys position maxDistance = none) := by
  constructor
  · intro r hr
    unfold FindNearestValidPosition at hr
    dsimp only at hr
    by_cases h0 : FindPolygon sys position maxDistance = 0
    · rw [if_pos h0] at hr; exact absurd hr (by simp)
    · rw [if_neg h0] at hr
      cases hg : GetPolygon sys (FindPolygon sys position maxDistance) with
      | none => rw [hg] at hr; exact absurd hr (by simp)
      | some poly =>
        rw [hg] at hr
        simp only [Option.some.injEq] at hr
        subst hr
        exact ⟨rfl, rfl, poly, hg ▸ rfl, rfl⟩
  · intro h0
    unfold FindNearestValidPosition
    dsimp only
    rw [if_pos h0]

theorem nearestValidPosition_snaps_height_witness :
    FindNearestValidPosition sysHigh ⟨1, 3, 0⟩ 5 = some ⟨1, 7, 0⟩ ∧
    ((⟨1, 7, 0⟩ : CLTVector).x = (⟨1, 3, 0⟩ : CLTVector).x ∧
      (⟨1, 7, 0⟩ : CLTVector).z = (⟨1, 3, 0⟩ : CLTVector).z ∧
      ∃ poly, GetPolygon sysHigh (FindPolygon sysHigh ⟨1, 3, 0⟩ 5) = some poly ∧
        (⟨1, 7, 0⟩ : CLTVector).y = poly.height) := by
  have hr : FindNearestValidPosition sysHigh ⟨1, 3, 0⟩ 5 = some ⟨1, 7, 0⟩ := by
    with_unfolding_all rfl
  exact ⟨hr, (nearestValidPosition_snaps_height sysHigh ⟨1, 3, 0⟩ 5).1 ⟨1, 7, 0⟩ hr⟩

/-! ## C10 — polygon id 0 as the off-mesh sentinel -/

/-- C10: polygon id 0 is the "no polygon" sentinel throughout the interface:
`IsPositionValid` reports valid exactly when the id it writes is nonzero and
writes exactly `FindPolygon`'s result; `FindPathToo` returns
`PATHFIND_INVALID_START` precisely when the start resolves to 0 and
`PATHFIND_INVALID_END` precisely when the start resolves nonzero and the end
to 0; and a store all of whose entries carry key 0 makes `FindPolygon`
return 0 for every position and radius — a polygon loaded under id 0 can
never be reported and is indistinguishable from the position being off the
mesh. -/
theorem zero_id_sentinel :
    (∀ (sys : CLTNavMeshSystem) (position : CLTVector),
      ((IsPositionValid sys position).1 = true ↔
        FindPolygon sys position ≠ 0) ∧
      (IsPositionValid sys position).2 = FindPolygon sys position) ∧
    (∀ (dist : CLTVector → CLTVector → ℚ) (sys : CLTNavMeshSystem)
        (s e : CLTVector) (k n : Int),
      ((FindPathToo dist sys s e k n).1 = PATHFIND_INVALID_START ↔
        FindPolygon sys s = 0) ∧
      ((FindPathToo dist sys s e k n).1 = PATHFIND_INVALID_END ↔
        (FindPolygon sys s ≠ 0 ∧ FindPolygon sys e = 0))) ∧
    (∀ (sys : CLTNavMeshSystem) (position : CLTVector) (maxDistance : ℚ),
      (∀ pr ∈ sys.m_polygons, pr.1 = 0) →
      FindPolygon sys position maxDistance = 0) := by
  refine ⟨?_, ?_, ?_⟩
  · intro sys position
    exact ⟨by unfold IsPositionValid; simp, rfl⟩
  · intro dist sys s e k n
    rw [FindPathToo_def]
    by_cases h0 : FindPolygon sys s = 0
    · rw [if_pos h0]
      constructor
      · simp [h0]
      · simp [h0]
    · rw [if_neg h0]
      by_cases h1 : FindPolygon sys e = 0
      · rw [if_pos h1]
        constructor
        · simp [h0, h1]
        · simp [h0, h1]
      · rw [if_neg h1]
        cases halloc : AllocateNode sys.m_nodePool with
        | none =>
          constructor
          · simp [h0]
          · simp [h1]
        | some startIdx =>
          have hni := astarLoop_result_not_invalid dist e (FindPolygon sys e)
            k.toNat
          constructor
          · exact ⟨fun hc => absurd hc (hni _).1, fun hc => absurd hc h0⟩
          · exact ⟨fun hc => absurd hc (hni _).2, fun hc => absurd hc.2 h1⟩
  · intro sys position maxDistance h
    exact findPolygon_zero_keys sys position maxDistance h

theorem zero_id_sentinel_witness :
    (∀ pr ∈ sysZero.m_polygons, pr.1 = 0) ∧
      FindPolygon sysZero ⟨0, 0, 0⟩ 2 = 0 := by
  have hall : ∀ pr ∈ sysZero.m_polygons, pr.1 = 0 := by
    intro pr hpr
    rw [show sysZero.m_polygons = [(0, polyZero)] from rfl] at hpr
    rw [List.mem_singleton.mp hpr]
  exact ⟨hall, zero_id_sentinel.2.2 sysZero ⟨0, 0, 0⟩ 2 hall⟩

end NavMesh
